import Mathlib

/-!
Verification of the PrimeCore trip-planner (`src/app.py`).

The app's backend helpers are shallowly embedded here:
* `get_mapping` — the geocoding loop (app.py lines 181–195);
* `cluster_attractions` — the KMeans day-grouping step (lines 197–207);
* the run-button handler (lines 232–262), including the API-key guard and
  the geodesic distance computation (lines 247–260);
* the "Days" number-input widget clamp (line 221).

External collaborators (the Groq LLM call, the Nominatim geocoder, sklearn's
`KMeans.fit_predict`, pandas' regex-default `str.contains` filter, geopy's
`geodesic`) are modelled as function parameters; contracts they are
documented to satisfy (labels in `[0, k)`, fixed-seed determinism,
non-negative distances) appear as explicit hypotheses, and the filter's
possible `re.error` is threaded as an `Except` value. Coordinates use `ℚ`
in place of machine floats.
-/

/-- One row of the geocoded point table built by `get_mapping`:
`{"name": q, "lat": loc.latitude, "lon": loc.longitude}`. -/
structure Point where
  name : String
  lat : ℚ
  lon : ℚ
deriving DecidableEq, Repr

/-- Outcome of one `geolocator.geocode(q)` call: the call may raise an
exception, return `None`, or return a location with coordinates. -/
inductive GeoResult where
  | raised
  | notFound
  | found (lat lon : ℚ)
deriving DecidableEq, Repr

/-- The sequence of queries issued by `get_mapping`:
`route = [origin] + landmarks + [dest]` (app.py line 184). -/
def route (origin dest : String) (landmarks : List String) : List String :=
  [origin] ++ landmarks ++ [dest]

/-- The geocoding loop of `get_mapping` (app.py lines 186–193): for each
query, sleep, geocode, and append a row only when a location came back;
an exception or a `None` result contributes nothing and the loop continues. -/
def get_mapping_loop (geocode : String → GeoResult) : List String → List Point
  | [] => []
  | q :: rest =>
    match geocode q with
    | GeoResult.found la lo => ⟨q, la, lo⟩ :: get_mapping_loop geocode rest
    | _ => get_mapping_loop geocode rest

/-- `get_mapping` (app.py lines 181–195): geocode origin, landmarks and
destination in order and return the table of successful rows. -/
def get_mapping (geocode : String → GeoResult) (origin dest : String)
    (landmarks : List String) : List Point :=
  get_mapping_loop geocode (route origin dest landmarks)

/-- Observable side effects of a run: the rate-limit sleep and the geocoding
request inside `get_mapping`, the chat-completion call, and `st.error`. -/
inductive Effect where
  | sleep (seconds : ℚ)
  | geoRequest (query : String)
  | llmCall
  | showError (msg : String)
deriving DecidableEq, Repr

/-- The effect trace of the `get_mapping` loop: `time.sleep(1.2)` then one
geocoder request, for each route element in order (app.py lines 186–189). -/
def geo_events : List String → List Effect
  | [] => []
  | q :: rest => Effect.sleep (6/5) :: Effect.geoRequest q :: geo_events rest

/-- The query of a geocoding-request effect, if it is one. -/
def requestQuery : Effect → Option String
  | Effect.geoRequest q => some q
  | _ => none

/-- A row of the point table after `df["cluster"] = kmeans.fit_predict(coords)`
(app.py line 206): the point plus its assigned cluster label. -/
structure ClusteredPoint where
  name : String
  lat : ℚ
  lon : ℚ
  cluster : Nat
deriving DecidableEq, Repr

/-- The point dataframe held in `st.session_state.trip_df`: either the raw
`get_mapping` output (no `cluster` column) or the clustered table. -/
inductive TripDF where
  | raw (points : List Point)
  | clustered (rows : List ClusteredPoint)
deriving DecidableEq, Repr

/-- `min(n_clusters, len(df))` — the cluster count `cluster_attractions`
passes to `KMeans` (app.py line 202). -/
def requested_clusters (n_clusters n_points : Nat) : Nat :=
  min n_clusters n_points

/-- Insert one row into a list sorted by ascending cluster label. -/
def insertByCluster (x : ClusteredPoint) : List ClusteredPoint → List ClusteredPoint
  | [] => [x]
  | y :: ys => if x.cluster ≤ y.cluster then x :: y :: ys else y :: insertByCluster x ys

/-- `df.sort_values("cluster")` (app.py line 207): reorder rows by ascending
cluster label. -/
def sortByCluster : List ClusteredPoint → List ClusteredPoint
  | [] => []
  | x :: xs => insertByCluster x (sortByCluster xs)

/-- A model of `sklearn.cluster.KMeans(...).fit_predict`: given the
`random_state` argument, the ambient randomness of the run, the requested
cluster count and the coordinate matrix, produce one label per sample. -/
def FitPredict : Type :=
  Nat → Nat → Nat → List (ℚ × ℚ) → List Nat

/-- `cluster_attractions` (app.py lines 197–207): return the dataframe
unchanged when it is `None`, empty or has fewer than 2 rows; otherwise run
KMeans with `n_clusters = min(n_clusters, len(df))` and `random_state=42` on
the raw lat/lon matrix, attach the labels, and sort rows by cluster label. -/
def cluster_attractions (fit_predict : FitPredict) (entropy : Nat)
    (df : Option (List Point)) (n_clusters : Nat) : Option TripDF :=
  match df with
  | none => none
  | some pts =>
    if pts.isEmpty ∨ pts.length < 2 then some (TripDF.raw pts)
    else
      let coords := pts.map fun p => (p.lat, p.lon)
      let labels := fit_predict 42 entropy (requested_clusters n_clusters pts.length) coords
      let rows := (pts.zip labels).map fun pc => ⟨pc.1.name, pc.1.lat, pc.1.lon, pc.2⟩
      some (TripDF.clustered (sortByCluster rows))

/-- `st.number_input("Days", 1, 30, 4)` (app.py line 221): the widget clamps
the entered value into `[1, 30]`, so the day count it yields is at least 1. -/
def days_number_input (entered : Int) : Int :=
  max 1 (min 30 entered)

/-- Modelled from the spec: the per-day budget figure ("total budget divided
by day count", spec §8 property 4) shown by sibling variants of this app; the
variant in `src/app.py` displays the raw `totalbudget` without dividing.
Division by zero raises in Python, modelled as `none`. -/
def per_day_budget (totalbudget : ℚ) (days : Int) : Option ℚ :=
  if days = 0 then none else some (totalbudget / (days : ℚ))

/-- True when `needle` is an initial segment of `hay`. -/
def charsStartWith : List Char → List Char → Bool
  | [], _ => true
  | _ :: _, [] => false
  | a :: as, b :: bs => a == b && charsStartWith as bs

/-- `needle` occurs as a contiguous substring of `hay`. -/
def charsContain (needle : List Char) : List Char → Bool
  | [] => needle.isEmpty
  | b :: bs => charsStartWith needle (b :: bs) || charsContain needle bs

/-- Python `str.lower()` (ASCII model), as the character list. -/
def lowerChars (s : String) : List Char :=
  s.toList.map Char.toLower

/-- The claim's reading of the filter at app.py lines 250–251: a plain
case-insensitive substring match of the query against the row's name.
This is NOT the program's semantics — `str.contains` defaults to
`regex=True`, abstracted below as `StrContains` — it is kept only to be
compared against the program's matcher in the C10 theorems. -/
def nameMatches (query : String) (name : String) : Bool :=
  charsContain (lowerChars query) (lowerChars name)

/-- pandas' `df["name"].str.lower().str.contains(query.lower())`
(app.py lines 250–251), abstracted: given the query, the call either raises
`re.error` while compiling `query.lower()` as a regular expression (the
`Except.error` case carries the exception's message), or yields the per-row
predicate `name ↦ re.search(query.lower(), name.lower()) is not None`
(regex search, `regex=True` being the pandas default; the lowering of the
name is internal to the yielded predicate). -/
def StrContains : Type :=
  String → Except String (String → Bool)

/-- Regex matching for the fragment of Python patterns made of literal
characters and the `.` wildcard: does the pattern match the text starting
at its first character? -/
def reDotStart : List Char → List Char → Bool
  | [], _ => true
  | _ :: _, [] => false
  | p :: ps, c :: cs => (p == '.' || p == c) && reDotStart ps cs

/-- `re.search` over the same literal-and-dot fragment: the pattern matches
at some position of the text. -/
def reDotSearch (pat : List Char) : List Char → Bool
  | [] => pat.isEmpty
  | c :: cs => reDotStart pat (c :: cs) || reDotSearch pat cs

/-- The program's name filter instantiated at queries whose lowered form
contains only literal ASCII characters and the `.` wildcard: such a pattern
always compiles, and `re.search` succeeds exactly when some position of the
lowered name matches it character-wise, `.` matching any character. On that
fragment this is precisely pandas' regex-default behaviour. -/
def reDotContains : StrContains := fun query =>
  Except.ok fun name => reDotSearch (lowerChars query) (lowerChars name)

/-- The `(name, lat, lon)` columns of the trip dataframe, with or without a
`cluster` column. -/
def TripDF.rows : TripDF → List (String × ℚ × ℚ)
  | TripDF.raw pts => pts.map fun p => (p.name, p.lat, p.lon)
  | TripDF.clustered cs => cs.map fun c => (c.name, c.lat, c.lon)

/-- Python `int(q)`: truncation toward zero. -/
def pyInt (q : ℚ) : Int :=
  if 0 ≤ q then ⌊q⌋ else -⌊-q⌋

/-- geopy's `geodesic((lat1, lon1), (lat2, lon2)).km`, modelled abstractly
as a function from two coordinate pairs to a distance in kilometres. -/
def Geodesic : Type :=
  (ℚ × ℚ) → (ℚ × ℚ) → ℚ

/-- The distance computation of the run-button handler (app.py lines
247–260): 0 when the dataframe is `None`, empty, or lacks a `name` column
(in this pipeline an empty `pd.DataFrame([])` is exactly the frame without
columns); otherwise compile the origin filter (line 250) then the
destination filter (line 251) — either `str.contains` call may raise
`re.error`, which propagates as `Except.error` to the handler's `try` —
and if both filtered tables are nonempty take
`int(geodesic(first start row, first end row).km)`, else 0. -/
def compute_distance (str_contains : StrContains) (geod : Geodesic)
    (origin dest : String) (df : Option TripDF) : Except String Int :=
  match df with
  | none => Except.ok 0
  | some t =>
    if t.rows.isEmpty then Except.ok 0
    else
      match str_contains origin with
      | Except.error e => Except.error e
      | Except.ok fo =>
        match str_contains dest with
        | Except.error e => Except.error e
        | Except.ok fd =>
          match t.rows.filter (fun r => fo r.1),
                t.rows.filter (fun r => fd r.1) with
          | s :: _, e :: _ => Except.ok (pyInt (geod s.2 e.2))
          | _, _ => Except.ok 0

/-- The generated itinerary, as far as the run-button handler consumes it:
`plan.get("mapcoords", [])` and the displayed fields. -/
structure Plan where
  totalbudget : String
  travelmode : String
  mapcoords : List String
deriving DecidableEq, Repr

/-- The session state touched by the run-button handler (app.py lines 25–30):
`trip_plan`, `trip_df` and `distance`. -/
structure SessionState where
  trip_plan : Option Plan
  trip_df : Option TripDF
  distance : Int
deriving DecidableEq, Repr

/-- Everything the run-button handler reads from the outside world: the API
key, the outcome of the chat-completion call (which may raise), the geocoder,
KMeans, the ambient randomness, the pandas name filter, the geodesic oracle,
and the form inputs. -/
structure Env where
  api_key : String
  llm : Except String Plan
  geocode : String → GeoResult
  fit_predict : FitPredict
  entropy : Nat
  str_contains : StrContains
  geod : Geodesic
  origin : String
  dest : String
  days : Nat

/-- The run-button handler (app.py lines 232–262). With an empty API key it
only shows an error. Otherwise it runs inside `try`: an exception from the
LLM call is caught and shown as `"Trip generation failed: ..."` with the
state untouched (nothing was assigned yet). On an ok LLM response the plan
is stored (line 239), the route geocoded and clustered and the result stored
(lines 241–245), and then the distance block runs: if a `str.contains` call
raises `re.error` there, the exception is caught and shown with `trip_plan`
and `trip_df` already updated and `distance` left at its old value;
otherwise the computed distance is stored. Returns the new session state
and the trace of effects. -/
def run_handler (env : Env) (st : SessionState) : SessionState × List Effect :=
  if env.api_key = "" then
    (st, [Effect.showError "Groq API key is not set on the server."])
  else
    match env.llm with
    | Except.error e =>
      (st, [Effect.llmCall, Effect.showError ("Trip generation failed: " ++ e)])
    | Except.ok plan =>
      let st1 := { st with trip_plan := some plan }
      let pts := get_mapping env.geocode env.origin env.dest plan.mapcoords
      let df := cluster_attractions env.fit_predict env.entropy (some pts) env.days
      let st2 := { st1 with trip_df := df }
      let events := Effect.llmCall :: geo_events (route env.origin env.dest plan.mapcoords)
      match compute_distance env.str_contains env.geod env.origin env.dest df with
      | Except.ok dist => ({ st2 with distance := dist }, events)
      | Except.error msg =>
        (st2, events ++ [Effect.showError ("Trip generation failed: " ++ msg)])

/-! ### Concrete fixtures used to instantiate the theorems -/

/-- A KMeans stub assigning every sample the label 0. -/
def fpZero : FitPredict := fun _ _ _ cs => cs.map fun _ => 0

/-- A KMeans stub assigning descending labels. -/
def fpRev : FitPredict := fun _ _ _ cs => (List.range cs.length).reverse

/-- A geocoder that fails on "Rome" and resolves everything else to (1, 2). -/
def gcW : String → GeoResult :=
  fun q => if q = "Rome" then GeoResult.raised else GeoResult.found 1 2

/-- The initial session state (app.py lines 25–30). -/
def st0 : SessionState := ⟨none, none, 0⟩

/-- A two-point geocoded table. -/
def ptsAB : List Point := [⟨"A", 0, 0⟩, ⟨"B", 5, 5⟩]

/-- `cluster_attractions fpZero 0 (some ptsAB) 2` as a literal. -/
def rowsW1 : List ClusteredPoint := [⟨"A", 0, 0, 0⟩, ⟨"B", 5, 5, 0⟩]

/-- `cluster_attractions fpRev 0 (some ptsAB) 2` as a literal. -/
def rowsW4 : List ClusteredPoint := [⟨"B", 5, 5, 0⟩, ⟨"A", 0, 0, 1⟩]

/-- A plan with one landmark. -/
def planX : Plan := ⟨"900", "car", ["X"]⟩

/-- A plan with no landmarks. -/
def planNil : Plan := ⟨"900", "car", []⟩

/-- A run environment whose geocoder raises on every query. -/
def envGeoFail : Env :=
  { api_key := "k", llm := Except.ok planX,
    geocode := fun _ => GeoResult.raised, fit_predict := fpZero, entropy := 0,
    str_contains := reDotContains, geod := fun _ _ => 0,
    origin := "A", dest := "B", days := 2 }

/-- A run environment whose LLM call raises. -/
def envBoom : Env := { envGeoFail with llm := Except.error "boom" }

/-- A run environment with an empty API key. -/
def envNoKey : Env := { envGeoFail with api_key := "" }

/-- A run environment in which only the origin geocodes successfully. -/
def envOne : Env :=
  { envGeoFail with
    llm := Except.ok planNil
    geocode := fun q => if q = "A" then GeoResult.found 1 1 else GeoResult.raised }

/-- A two-row point table for the distance computation. -/
def tW : TripDF := TripDF.raw [⟨"Amsterdam", 1, 2⟩, ⟨"Berlin", 3, 4⟩]

/-- A two-row point table for the regex-vs-substring counterexample. -/
def tCE : TripDF := TripDF.raw [⟨"abc", 1, 2⟩, ⟨"xyz", 3, 4⟩]

/-- A geodesic oracle returning a constant 3.5 km. -/
def geodW : Geodesic := fun _ _ => 7/2

/-- A geodesic oracle returning a constant 3 km. -/
def geodCE : Geodesic := fun _ _ => 3

/-! ### Helper lemmas -/

theorem insertByCluster_perm (x : ClusteredPoint) (l : List ClusteredPoint) :
    List.Perm (insertByCluster x l) (x :: l) := by
  induction l with
  | nil => rfl
  | cons y ys ih =>
    by_cases h : x.cluster ≤ y.cluster
    · simp [insertByCluster, h]
    · simp only [insertByCluster, if_neg h]
      exact (ih.cons y).trans (List.Perm.swap x y ys)

theorem sortByCluster_perm (l : List ClusteredPoint) : List.Perm (sortByCluster l) l := by
  induction l with
  | nil => rfl
  | cons x xs ih => exact (insertByCluster_perm x (sortByCluster xs)).trans (ih.cons x)

theorem insertByCluster_pairwise (x : ClusteredPoint) (l : List ClusteredPoint)
    (h : l.Pairwise fun a b => a.cluster ≤ b.cluster) :
    (insertByCluster x l).Pairwise fun a b => a.cluster ≤ b.cluster := by
  induction l with
  | nil => simp [insertByCluster]
  | cons y ys ih =>
    rcases List.pairwise_cons.mp h with ⟨hy, hys⟩
    by_cases hxy : x.cluster ≤ y.cluster
    · simp only [insertByCluster, if_pos hxy]
      refine List.pairwise_cons.mpr ⟨?_, h⟩
      intro z hz
      rcases List.mem_cons.mp hz with rfl | hz
      · exact hxy
      · exact le_trans hxy (hy z hz)
    · simp only [insertByCluster, if_neg hxy]
      refine List.pairwise_cons.mpr ⟨?_, ih hys⟩
      intro z hz
      rcases List.mem_cons.mp ((insertByCluster_perm x ys).mem_iff.mp hz) with rfl | hz
      · exact le_of_not_le hxy
      · exact hy z hz

theorem sortByCluster_pairwise (l : List ClusteredPoint) :
    (sortByCluster l).Pairwise fun a b => a.cluster ≤ b.cluster := by
  induction l with
  | nil => simp [sortByCluster]
  | cons x xs ih => exact insertByCluster_pairwise x (sortByCluster xs) ih

/-- The geocoding loop keeps exactly the successfully geocoded queries,
in route order. -/
theorem get_mapping_loop_eq_filterMap (geocode : String → GeoResult) (qs : List String) :
    get_mapping_loop geocode qs =
      qs.filterMap fun q =>
        match geocode q with
        | GeoResult.found la lo => some ⟨q, la, lo⟩
        | _ => none := by
  induction qs with
  | nil => rfl
  | cons q rest ih =>
    cases hq : geocode q <;>
      simp [get_mapping_loop, List.filterMap_cons, hq, ih]

theorem mem_get_mapping_loop {geocode : String → GeoResult} {qs : List String}
    {p : Point} (hp : p ∈ get_mapping_loop geocode qs) :
    geocode p.name = GeoResult.found p.lat p.lon := by
  induction qs with
  | nil => cases hp
  | cons q rest ih =>
    revert hp
    unfold get_mapping_loop
    cases hq : geocode q with
    | found la lo =>
      intro hp
      rcases List.mem_cons.mp hp with rfl | hp
      · exact hq
      · exact ih hp
    | raised => exact ih
    | notFound => exact ih

theorem geo_events_eq_flatMap (qs : List String) :
    geo_events qs = qs.flatMap fun q => [Effect.sleep (6/5), Effect.geoRequest q] := by
  induction qs with
  | nil => rfl
  | cons q rest ih => simp [geo_events, ih]

theorem geo_events_requests (qs : List String) :
    (geo_events qs).filterMap requestQuery = qs := by
  induction qs with
  | nil => rfl
  | cons q rest ih => simp [geo_events, List.filterMap_cons, requestQuery, ih]

theorem geo_events_no_showError (qs : List String) (msg : String) :
    Effect.showError msg ∉ geo_events qs := by
  induction qs with
  | nil => simp [geo_events]
  | cons q rest ih => simp [geo_events, ih]

/-! ### Claims -/

/-- C2: every row of the table returned by `get_mapping` carries the
latitude/longitude of a successful geocoding result for its name; a place
whose geocoding raises or returns no location contributes no row at all. -/
theorem spec_C2 (geocode : String → GeoResult) (o d : String) (ls : List String) :
    (∀ p, p ∈ get_mapping geocode o d ls →
        geocode p.name = GeoResult.found p.lat p.lon) ∧
    (∀ q, (∀ la lo, geocode q ≠ GeoResult.found la lo) →
        ∀ p, p ∈ get_mapping geocode o d ls → p.name ≠ q) := by
  have h1 : ∀ p, p ∈ get_mapping geocode o d ls →
      geocode p.name = GeoResult.found p.lat p.lon :=
    fun p hp => mem_get_mapping_loop hp
  refine ⟨h1, ?_⟩
  intro q hq p hp hname
  exact hq p.lat p.lon (hname ▸ h1 p hp)

theorem spec_C2_witness :
    gcW (Point.mk "A" 1 2).name =
      GeoResult.found (Point.mk "A" 1 2).lat (Point.mk "A" 1 2).lon :=
  (spec_C2 gcW "A" "B" ["Rome"]).1 ⟨"A", 1, 2⟩ (by decide)

/-- C8: `get_mapping` issues one geocoding request per element of
`[origin] ++ landmarks ++ [dest]`, in that order, each preceded by the fixed
1.2-second sleep, and its rows are exactly the successfully resolved places
of that sequence in that order. -/
theorem spec_C8 (geocode : String → GeoResult) (o d : String) (ls : List String) :
    geo_events (route o d ls) =
      (route o d ls).flatMap (fun q => [Effect.sleep (6/5), Effect.geoRequest q]) ∧
    (geo_events (route o d ls)).filterMap requestQuery = route o d ls ∧
    get_mapping geocode o d ls =
      (route o d ls).filterMap (fun q =>
        match geocode q with
        | GeoResult.found la lo => some ⟨q, la, lo⟩
        | _ => none) :=
  ⟨geo_events_eq_flatMap _, geo_events_requests _, get_mapping_loop_eq_filterMap _ _⟩

/-- C3: with the seed fixed at 42, `cluster_attractions` is insensitive to
the ambient randomness of the run: two runs on the same dataframe and day
count produce identical results. -/
theorem spec_C3 (fp : FitPredict) (df : Option (List Point)) (d e1 e2 : Nat)
    (hseed : ∀ ent ent' k cs, fp 42 ent k cs = fp 42 ent' k cs) :
    cluster_attractions fp e1 df d = cluster_attractions fp e2 df d := by
  cases df with
  | none => rfl
  | some pts =>
    by_cases hsmall : pts.isEmpty ∨ pts.length < 2
    · simp only [cluster_attractions, if_pos hsmall]
    · simp only [cluster_attractions, if_neg hsmall]
      rw [hseed e1 e2]

theorem spec_C3_witness :
    cluster_attractions fpZero 0 (some ptsAB) 2 =
      cluster_attractions fpZero 1 (some ptsAB) 2 :=
  spec_C3 fpZero (some ptsAB) 2 0 1 (fun _ _ _ _ => rfl)

/-- C5: the "Days" widget clamps its value to at least 1, so dividing the
total budget by the day count never divides by zero. -/
theorem spec_C5 (entered : Int) (budget : ℚ) :
    1 ≤ days_number_input entered ∧
    per_day_budget budget (days_number_input entered) =
      some (budget / ((days_number_input entered : Int) : ℚ)) := by
  have h1 : 1 ≤ days_number_input entered := le_max_left 1 _
  refine ⟨h1, ?_⟩
  unfold per_day_budget
  rw [if_neg (by omega)]

/-- C6: with an empty API key the run-button handler only shows the error
message: no LLM call, no geocoding request, and the session state is
returned unchanged. -/
theorem spec_C6 (env : Env) (st : SessionState) (hkey : env.api_key = "") :
    (run_handler env st).1 = st ∧
    Effect.llmCall ∉ (run_handler env st).2 ∧
    (∀ q, Effect.geoRequest q ∉ (run_handler env st).2) ∧
    Effect.showError "Groq API key is not set on the server." ∈ (run_handler env st).2 := by
  simp [run_handler, hkey]

theorem spec_C6_witness :
    (run_handler envNoKey st0).1 = st0 ∧
    Effect.llmCall ∉ (run_handler envNoKey st0).2 ∧
    (∀ q, Effect.geoRequest q ∉ (run_handler envNoKey st0).2) ∧
    Effect.showError "Groq API key is not set on the server." ∈ (run_handler envNoKey st0).2 :=
  spec_C6 envNoKey st0 rfl

/-- C1: under the KMeans contract (one label per sample, labels in `[0, k)`),
`cluster_attractions` requests exactly `min(requested_days, n_points)`
clusters, every assigned label is below that bound, and the number of
distinct day/cluster groups never exceeds it. -/
theorem spec_C1 (fp : FitPredict) (e : Nat) (pts : List Point) (d : Nat)
    (rows : List ClusteredPoint)
    (hcon : ∀ k cs, 1 ≤ k →
        (fp 42 e k cs).length = cs.length ∧ ∀ l ∈ fp 42 e k cs, l < k)
    (hd : 1 ≤ d)
    (hrun : cluster_attractions fp e (some pts) d = some (TripDF.clustered rows)) :
    (∀ r ∈ rows, r.cluster < requested_clusters d pts.length) ∧
    (rows.map ClusteredPoint.cluster).toFinset.card ≤ requested_clusters d pts.length := by
  by_cases hsmall : pts.isEmpty ∨ pts.length < 2
  · simp only [cluster_attractions, if_pos hsmall, Option.some.injEq] at hrun
    exact absurd hrun (by simp)
  · have hlen2 : 2 ≤ pts.length := Nat.le_of_not_lt fun h => hsmall (Or.inr h)
    have hk1 : 1 ≤ requested_clusters d pts.length :=
      le_min hd (le_trans one_le_two hlen2)
    obtain ⟨-, hlab⟩ :=
      hcon (requested_clusters d pts.length) (pts.map fun p => (p.lat, p.lon)) hk1
    simp only [cluster_attractions, if_neg hsmall, Option.some.injEq,
      TripDF.clustered.injEq] at hrun
    have hmem : ∀ r ∈ rows, r.cluster < requested_clusters d pts.length := by
      intro r hr
      rw [← hrun] at hr
      have hr0 := (sortByCluster_perm _).mem_iff.mp hr
      rcases List.mem_map.mp hr0 with ⟨pc, hpc, rfl⟩
      exact hlab pc.2 (List.of_mem_zip hpc).2
    refine ⟨hmem, ?_⟩
    have hsub : (rows.map ClusteredPoint.cluster).toFinset ⊆
        Finset.range (requested_clusters d pts.length) := by
      intro x hx
      rcases List.mem_map.mp (List.mem_toFinset.mp hx) with ⟨r, hr, rfl⟩
      exact Finset.mem_range.mpr (hmem r hr)
    calc (rows.map ClusteredPoint.cluster).toFinset.card
        ≤ (Finset.range (requested_clusters d pts.length)).card :=
          Finset.card_le_card hsub
      _ = requested_clusters d pts.length := Finset.card_range _

theorem spec_C1_witness :
    (∀ r ∈ rowsW1, r.cluster < requested_clusters 2 ptsAB.length) ∧
    (rowsW1.map ClusteredPoint.cluster).toFinset.card ≤
      requested_clusters 2 ptsAB.length :=
  spec_C1 fpZero 0 ptsAB 2 rowsW1
    (by
      intro k cs hk
      refine ⟨by simp [fpZero], ?_⟩
      intro l hl
      rcases List.mem_map.mp hl with ⟨a, ha, h0⟩
      omega)
    (by decide) (by decide)

/-- C4: for a dataframe with at least 2 points, the rows of the clustered
table returned by `cluster_attractions` are ordered by ascending cluster
label. -/
theorem spec_C4 (fp : FitPredict) (e : Nat) (pts : List Point) (d : Nat)
    (rows : List ClusteredPoint) (h2 : 2 ≤ pts.length)
    (hrun : cluster_attractions fp e (some pts) d = some (TripDF.clustered rows)) :
    rows.Pairwise fun a b => a.cluster ≤ b.cluster := by
  by_cases hsmall : pts.isEmpty ∨ pts.length < 2
  · simp only [cluster_attractions, if_pos hsmall, Option.some.injEq] at hrun
    exact absurd hrun (by simp)
  · simp only [cluster_attractions, if_neg hsmall, Option.some.injEq,
      TripDF.clustered.injEq] at hrun
    exact hrun ▸ sortByCluster_pairwise _

theorem spec_C4_witness :
    rowsW4.Pairwise (fun a b => a.cluster ≤ b.cluster) :=
  spec_C4 fpRev 0 ptsAB 2 rowsW4 (by decide) (by decide)

/-- C9: `cluster_attractions` returns a `None`, empty, or single-row
dataframe unchanged, adding no cluster column; consequently a run that
geocodes exactly one point stores a point table without any day/cluster
assignment. -/
theorem spec_C9 :
    (∀ (fp : FitPredict) (e d : Nat), cluster_attractions fp e none d = none) ∧
    (∀ (fp : FitPredict) (e d : Nat) (pts : List Point), pts.length < 2 →
        cluster_attractions fp e (some pts) d = some (TripDF.raw pts)) ∧
    (∀ (env : Env) (st : SessionState) (plan : Plan),
        env.api_key ≠ "" → env.llm = Except.ok plan →
        (get_mapping env.geocode env.origin env.dest plan.mapcoords).length = 1 →
        (run_handler env st).1.trip_df =
          some (TripDF.raw (get_mapping env.geocode env.origin env.dest plan.mapcoords))) := by
  have h2 : ∀ (fp : FitPredict) (e d : Nat) (pts : List Point), pts.length < 2 →
      cluster_attractions fp e (some pts) d = some (TripDF.raw pts) := by
    intro fp e d pts hlt
    simp only [cluster_attractions, if_pos (Or.inr hlt)]
  refine ⟨fun fp e d => rfl, h2, ?_⟩
  intro env st plan hkey hllm hlen
  have hraw := h2 env.fit_predict env.entropy env.days
      (get_mapping env.geocode env.origin env.dest plan.mapcoords) (by omega)
  simp only [run_handler, if_neg hkey, hllm]
  split <;> simp [hraw]

theorem spec_C9_witness :
    (run_handler envOne st0).1.trip_df = some (TripDF.raw [⟨"A", 1, 1⟩]) := by
  have h := spec_C9.2.2 envOne st0 planNil (by decide) rfl (by decide)
  rw [h]
  decide

/-- C7 counterexample: a run whose geocoder raises on every query completes
with no user-visible failure message at all — the geocoding exceptions are
swallowed silently rather than surfaced. -/
theorem spec_C7_counterexample :
    envGeoFail.geocode "A" = GeoResult.raised ∧
    Effect.geoRequest "A" ∈ (run_handler envGeoFail st0).2 ∧
    (∀ msg, Effect.showError msg ∉ (run_handler envGeoFail st0).2) := by
  have heff : (run_handler envGeoFail st0).2 =
      [Effect.llmCall, Effect.sleep (6/5), Effect.geoRequest "A",
       Effect.sleep (6/5), Effect.geoRequest "X",
       Effect.sleep (6/5), Effect.geoRequest "B"] := rfl
  refine ⟨rfl, ?_, ?_⟩
  · rw [heff]
    decide
  · intro msg
    rw [heff]
    simp

/-- C7 (amended): an exception raised by the itinerary-generation call is
caught and surfaced as `"Trip generation failed: ..."` with the session
state unchanged (nothing was assigned yet); an exception raised later
inside the `try` block — the `re.error` a `str.contains` filter can raise
in the distance computation — is likewise caught and surfaced, but only
after `trip_plan` and `trip_df` have already been updated, `distance`
keeping its old value; and exceptions raised during geocoding are caught
inside `get_mapping` and silently drop the point, so a run whose distance
computation succeeds shows no error message, whatever the geocoder did. -/
theorem spec_C7_amended (env : Env) (st : SessionState) (hkey : env.api_key ≠ "") :
    (∀ e, env.llm = Except.error e →
        (run_handler env st).1 = st ∧
        Effect.showError ("Trip generation failed: " ++ e) ∈ (run_handler env st).2) ∧
    (∀ plan msg, env.llm = Except.ok plan →
        compute_distance env.str_contains env.geod env.origin env.dest
            (cluster_attractions env.fit_predict env.entropy
              (some (get_mapping env.geocode env.origin env.dest plan.mapcoords))
              env.days) = Except.error msg →
        (run_handler env st).1.trip_plan = some plan ∧
        (run_handler env st).1.distance = st.distance ∧
        Effect.showError ("Trip generation failed: " ++ msg) ∈ (run_handler env st).2) ∧
    (∀ plan n, env.llm = Except.ok plan →
        compute_distance env.str_contains env.geod env.origin env.dest
            (cluster_attractions env.fit_predict env.entropy
              (some (get_mapping env.geocode env.origin env.dest plan.mapcoords))
              env.days) = Except.ok n →
        ∀ msg, Effect.showError msg ∉ (run_handler env st).2) := by
  refine ⟨?_, ?_, ?_⟩
  · intro e hllm
    simp [run_handler, if_neg hkey, hllm]
  · intro plan msg hllm hdist
    simp only [run_handler, if_neg hkey, hllm, hdist]
    simp
  · intro plan n hllm hdist msg hmem
    simp only [run_handler, if_neg hkey, hllm, hdist] at hmem
    rcases List.mem_cons.mp hmem with h | h
    · exact Effect.noConfusion h
    · exact geo_events_no_showError _ msg h

theorem spec_C7_amended_witness :
    (run_handler envBoom st0).1 = st0 ∧
    Effect.showError ("Trip generation failed: " ++ "boom") ∈ (run_handler envBoom st0).2 :=
  (spec_C7_amended envBoom st0 (by decide)).1 "boom" rfl

/-- C10 counterexample: the program's name filter is pandas' regex-default
`str.contains`, not a substring test. The origin `"a.c"` fails a
case-insensitive substring match against every name of the table, yet the
regex matches the row `"abc"` (`.` is a wildcard) and the run displays
distance 3 where the substring reading of the claim demands 0. -/
theorem spec_C10_counterexample :
    nameMatches "a.c" "abc" = false ∧
    nameMatches "a.c" "xyz" = false ∧
    reDotSearch (lowerChars "a.c") (lowerChars "abc") = true ∧
    compute_distance reDotContains geodCE "a.c" "xyz" (some tCE) = Except.ok 3 := by
  refine ⟨by decide, by decide, by decide, ?_⟩
  rfl

/-- C10 (amended): the name filters are pandas' regex-default
case-insensitive search — which agrees with a substring test only for
metacharacter-free queries and may raise `re.error`, surfaced under C7.
For every run: every successfully computed distance is non-negative; the
distance is 0 when the table is absent, and when both filters compile and
either selects no row (in particular when the table is empty); and when
both filters compile and each selects a first row, the distance is the
geodesic distance between those two rows truncated to an integer. -/
theorem spec_C10_amended (cl : StrContains) (geod : Geodesic) (o d : String)
    (df : Option TripDF) (hgeod : ∀ a b, 0 ≤ geod a b) :
    (∀ n, compute_distance cl geod o d df = Except.ok n → 0 ≤ n) ∧
    (df = none → compute_distance cl geod o d df = Except.ok 0) ∧
    (∀ t fo fd, df = some t →
        cl o = Except.ok fo → cl d = Except.ok fd →
        (t.rows.filter (fun r => fo r.1) = [] ∨
         t.rows.filter (fun r => fd r.1) = []) →
        compute_distance cl geod o d df = Except.ok 0) ∧
    (∀ t fo fd s e ss es, df = some t →
        cl o = Except.ok fo → cl d = Except.ok fd →
        t.rows.filter (fun r => fo r.1) = s :: ss →
        t.rows.filter (fun r => fd r.1) = e :: es →
        compute_distance cl geod o d df = Except.ok ⌊geod s.2 e.2⌋) := by
  refine ⟨?_, ?_, ?_, ?_⟩
  · intro n h
    cases df with
    | none =>
      simp only [compute_distance, Except.ok.injEq] at h
      omega
    | some t =>
      simp only [compute_distance] at h
      by_cases hemp : t.rows.isEmpty
      · rw [if_pos hemp] at h
        simp only [Except.ok.injEq] at h
        omega
      · rw [if_neg hemp] at h
        split at h
        · exact absurd h (by simp)
        · split at h
          · exact absurd h (by simp)
          · split at h
            · simp only [Except.ok.injEq] at h
              rw [← h]
              unfold pyInt
              rw [if_pos (hgeod _ _)]
              exact Int.floor_nonneg.mpr (hgeod _ _)
            · simp only [Except.ok.injEq] at h
              omega
  · intro h
    subst h
    rfl
  · intro t fo fd hdf ho hd' hor
    subst hdf
    simp only [compute_distance]
    by_cases hemp : t.rows.isEmpty
    · rw [if_pos hemp]
    · rw [if_neg hemp]
      simp only [ho, hd']
      rcases hor with h | h <;> rw [h]
      all_goals split <;> simp_all
  · intro t fo fd s e ss es hdf ho hd' h1 h2
    subst hdf
    simp only [compute_distance]
    have hemp : t.rows.isEmpty = false := by
      cases hr : t.rows with
      | nil => rw [hr] at h1; simp at h1
      | cons a l => rfl
    rw [if_neg (by simp [hemp])]
    simp only [ho, hd']
    rw [h1, h2]
    show Except.ok (pyInt (geod s.2 e.2)) = Except.ok ⌊geod s.2 e.2⌋
    unfold pyInt
    rw [if_pos (hgeod _ _)]

theorem spec_C10_amended_witness :
    compute_distance reDotContains geodW "amst" "ERL" (some tW) =
      Except.ok ⌊(7/2 : ℚ)⌋ := by
  have h := (spec_C10_amended reDotContains geodW "amst" "ERL" (some tW)
      (fun _ _ => by norm_num [geodW])).2.2.2 tW
      (fun name => reDotSearch (lowerChars "amst") (lowerChars name))
      (fun name => reDotSearch (lowerChars "ERL") (lowerChars name))
      ("Amsterdam", 1, 2) ("Berlin", 3, 4) [] [] rfl rfl rfl (by decide) (by decide)
  exact h
